import Mathlib

/-!
Verification of the Wuthering Waves article scraper (`scrape.py`).

The Python source is shallowly embedded: JSON records (Python dicts with
string keys) become insertion-ordered association lists, the regex-based
markdown pipeline becomes explicit character-list scanners implementing the
exact patterns of the source, timestamps (`datetime.strptime` +
`.timestamp()`) become an explicit proleptic-Gregorian epoch computation on
`Int`, and Python's stable `sorted(..., reverse=True)` becomes a stable
insertion sort over the same key function.
-/

namespace WutheringWaves

/-! ## Python string primitives -/

/-- Unicode whitespace as recognised by Python's `str.strip` and the regex
class `\s` on `str`: ASCII whitespace plus the common Unicode space
characters (NO-BREAK SPACE, OGHAM SPACE MARK, the U+2000 block, LINE and
PARAGRAPH SEPARATOR, NARROW NO-BREAK SPACE, MEDIUM MATHEMATICAL SPACE,
IDEOGRAPHIC SPACE). -/
def isPyWs (c : Char) : Bool :=
  c = ' ' || (0x09 ≤ c.toNat && c.toNat ≤ 0x0d) || c.toNat = 0x1c ||
  c.toNat = 0x1d || c.toNat = 0x1e || c.toNat = 0x1f || c.toNat = 0x85 ||
  c.toNat = 0xa0 || c.toNat = 0x1680 ||
  (0x2000 ≤ c.toNat && c.toNat ≤ 0x200a) || c.toNat = 0x2028 ||
  c.toNat = 0x2029 || c.toNat = 0x202f || c.toNat = 0x205f ||
  c.toNat = 0x3000

/-- Python `str.strip()` on a character list. -/
def pyStripList (cs : List Char) : List Char :=
  ((cs.dropWhile isPyWs).reverse.dropWhile isPyWs).reverse

/-- Python `str.strip()`. -/
def pyStrip (s : String) : String := ⟨pyStripList s.data⟩

/-! ## Insertion-ordered dictionaries (Python dicts with string keys) -/

/-- `key in d` for a Python dict modelled as an insertion-ordered
association list. -/
def dictHasKey (k : String) (r : List (String × α)) : Bool :=
  r.any (fun p => p.1 == k)

/-- `d.get(key)`: value of the first (unique) binding of `k`. -/
def dictFind? (k : String) (r : List (String × α)) : Option α :=
  (r.find? (fun p => p.1 == k)).map (fun p => p.2)

/-- `d[key] = v`: replace the value in place when the key is present
(keeping its position, as Python dicts do), otherwise append the new
binding at the end. -/
def dictSet (k : String) (v : α) (r : List (String × α)) : List (String × α) :=
  if dictHasKey k r then r.map (fun p => if p.1 == k then (k, v) else p)
  else r ++ [(k, v)]

/-! ## Field enrichment merge (`add_data_to_articles`, scrape.py 595-640) -/

/-- The fixed key set copied from `ArticleMenu.json` entries into article
records (scrape.py line 632). -/
def enrichmentKeys : List String :=
  ["articleDesc", "createTime", "sortingMark", "suggestCover", "top"]

/-- One iteration of the loop at scrape.py lines 632-634:
`if key in item and key not in article_data: article_data[key] = item[key]`. -/
def mergeStep (e : List (String × α)) (acc : List (String × α)) (k : String) :
    List (String × α) :=
  match dictFind? k e with
  | some v => if dictHasKey k acc then acc else dictSet k v acc
  | none => acc

/-- The enrichment merge of `add_data_to_articles`: for each key of
`enrichmentKeys`, copy the index entry's value into the record when the
entry defines the key and the record does not. -/
def merge_article_data (r e : List (String × α)) : List (String × α) :=
  enrichmentKeys.foldl (mergeStep e) r

/-- The write-back decision of `add_data_to_articles` (scrape.py lines
629-640) as written: `old_article_data = article_data` binds a second name
to the *same* dict object, the loop then mutates that object in place, and
`if old_article_data != article_data` therefore compares the merged object
with itself.  The comparison is between two names for one value. -/
def add_data_write_back (r e : List (String × String)) : Bool :=
  let mutated := merge_article_data r e
  !(mutated == mutated)

/-! ### Dictionary lemmas -/

theorem dictHasKey_append (k : String) (r s : List (String × α)) :
    dictHasKey k (r ++ s) = (dictHasKey k r || dictHasKey k s) := by
  simp [dictHasKey, List.any_append]

theorem dictHasKey_eq_isSome (k : String) (r : List (String × α)) :
    dictHasKey k r = (r.find? (fun p => p.1 == k)).isSome := by
  induction r with
  | nil => rfl
  | cons a t ih =>
    cases h : (a.1 == k) with
    | true => simp [dictHasKey, List.any_cons, h, List.find?_cons_of_pos _ h]
    | false =>
      rw [List.find?_cons_of_neg _ (by simp [h])]
      simp [dictHasKey, List.any_cons, h] at ih ⊢
      exact ih

theorem dictFind?_eq_none (k : String) (r : List (String × α))
    (h : dictHasKey k r = false) : dictFind? k r = none := by
  rw [dictHasKey_eq_isSome] at h
  unfold dictFind?
  cases hf : r.find? (fun p => p.1 == k) with
  | none => rfl
  | some p => rw [hf] at h; simp at h

theorem dictFind?_append_left (k : String) (r s : List (String × α))
    (h : dictHasKey k r = true) : dictFind? k (r ++ s) = dictFind? k r := by
  rw [dictHasKey_eq_isSome] at h
  unfold dictFind?
  rw [List.find?_append]
  cases hf : r.find? (fun p => p.1 == k) with
  | none => rw [hf] at h; simp at h
  | some p => rfl

theorem dictSet_of_not_hasKey (k : String) (v : α) (r : List (String × α))
    (h : dictHasKey k r = false) : dictSet k v r = r ++ [(k, v)] := by
  simp [dictSet, h]

/-! ### Merge lemmas -/

theorem find?_eq_none_of_not_hasKey (k : String) (r : List (String × α))
    (h : dictHasKey k r = false) : r.find? (fun p => p.1 == k) = none := by
  have h2 := dictHasKey_eq_isSome k r
  rw [h] at h2
  cases hf : r.find? (fun p => p.1 == k) with
  | none => rfl
  | some p => rw [hf] at h2; simp at h2

theorem mergeStep_eq_of_none (e acc : List (String × α)) (k : String)
    (hv : dictFind? k e = none) : mergeStep e acc k = acc := by
  unfold mergeStep; rw [hv]

theorem mergeStep_eq_of_hasKey (e acc : List (String × α)) (k : String)
    (hk : dictHasKey k acc = true) : mergeStep e acc k = acc := by
  unfold mergeStep
  cases dictFind? k e with
  | none => rfl
  | some v => simp [hk]

theorem mergeStep_eq_append (e acc : List (String × α)) (k : String) (v : α)
    (hv : dictFind? k e = some v) (hk : dictHasKey k acc = false) :
    mergeStep e acc k = acc ++ [(k, v)] := by
  unfold mergeStep
  rw [hv]
  simp [hk, dictSet]

theorem mergeStep_hasKey_mono (e acc : List (String × α)) (k k' : String)
    (h : dictHasKey k' acc = true) : dictHasKey k' (mergeStep e acc k) = true := by
  cases hv : dictFind? k e with
  | none => rw [mergeStep_eq_of_none e acc k hv]; exact h
  | some v =>
    cases hk : dictHasKey k acc with
    | true => rw [mergeStep_eq_of_hasKey e acc k hk]; exact h
    | false =>
      rw [mergeStep_eq_append e acc k v hv hk, dictHasKey_append, h, Bool.true_or]

theorem mergeStep_find?_of_hasKey (e acc : List (String × α)) (k k' : String)
    (h : dictHasKey k' acc = true) :
    dictFind? k' (mergeStep e acc k) = dictFind? k' acc := by
  cases hv : dictFind? k e with
  | none => rw [mergeStep_eq_of_none e acc k hv]
  | some v =>
    cases hk : dictHasKey k acc with
    | true => rw [mergeStep_eq_of_hasKey e acc k hk]
    | false =>
      rw [mergeStep_eq_append e acc k v hv hk]
      exact dictFind?_append_left _ _ _ h

theorem mergeStep_hasKey_other (e acc : List (String × α)) (k k' : String)
    (hne : (k == k') = false) :
    dictHasKey k' (mergeStep e acc k) = dictHasKey k' acc := by
  cases hv : dictFind? k e with
  | none => rw [mergeStep_eq_of_none e acc k hv]
  | some v =>
    cases hk : dictHasKey k acc with
    | true => rw [mergeStep_eq_of_hasKey e acc k hk]
    | false =>
      rw [mergeStep_eq_append e acc k v hv hk, dictHasKey_append]
      simp [dictHasKey, hne]

theorem mergeStep_adds (e acc : List (String × α)) (k : String) (v : α)
    (hv : dictFind? k e = some v) : dictHasKey k (mergeStep e acc k) = true := by
  cases hk : dictHasKey k acc with
  | true => rw [mergeStep_eq_of_hasKey e acc k hk]; exact hk
  | false =>
    rw [mergeStep_eq_append e acc k v hv hk, dictHasKey_append]
    simp [dictHasKey]

theorem mergeStep_adds_find? (e acc : List (String × α)) (k : String) (v : α)
    (hv : dictFind? k e = some v) (hk : dictHasKey k acc = false) :
    dictFind? k (mergeStep e acc k) = some v := by
  rw [mergeStep_eq_append e acc k v hv hk]
  unfold dictFind?
  rw [List.find?_append, find?_eq_none_of_not_hasKey k acc hk]
  simp [List.find?]

theorem foldl_mergeStep_hasKey_mono (e : List (String × α)) (ks : List String)
    (acc : List (String × α)) (k' : String) (h : dictHasKey k' acc = true) :
    dictHasKey k' (ks.foldl (mergeStep e) acc) = true := by
  induction ks generalizing acc with
  | nil => exact h
  | cons a t ih => exact ih _ (mergeStep_hasKey_mono e acc a k' h)

theorem foldl_mergeStep_find?_of_hasKey (e : List (String × α)) (ks : List String)
    (acc : List (String × α)) (k' : String) (h : dictHasKey k' acc = true) :
    dictFind? k' (ks.foldl (mergeStep e) acc) = dictFind? k' acc := by
  induction ks generalizing acc with
  | nil => rfl
  | cons a t ih =>
    rw [List.foldl_cons, ih _ (mergeStep_hasKey_mono e acc a k' h),
      mergeStep_find?_of_hasKey e acc a k' h]

theorem foldl_mergeStep_hasKey_of_mem (e : List (String × α)) (ks : List String)
    (acc : List (String × α)) (k : String) (v : α) (hk : k ∈ ks)
    (hv : dictFind? k e = some v) :
    dictHasKey k (ks.foldl (mergeStep e) acc) = true := by
  induction ks generalizing acc with
  | nil => cases hk
  | cons a t ih =>
    rw [List.foldl_cons]
    by_cases ha : a = k
    · subst ha
      exact foldl_mergeStep_hasKey_mono e t _ a (mergeStep_adds e acc a v hv)
    · have hk' : k ∈ t := by
        rcases List.mem_cons.mp hk with h' | h'
        · exact absurd h'.symm ha
        · exact h'
      exact ih _ hk'

theorem foldl_mergeStep_noop (e : List (String × α)) (ks : List String)
    (acc : List (String × α))
    (h : ∀ k ∈ ks, (dictFind? k e).isSome = true → dictHasKey k acc = true) :
    ks.foldl (mergeStep e) acc = acc := by
  induction ks with
  | nil => rfl
  | cons a t ih =>
    have hstep : mergeStep e acc a = acc := by
      cases hf : dictFind? a e with
      | none => exact mergeStep_eq_of_none e acc a hf
      | some v =>
        exact mergeStep_eq_of_hasKey e acc a
          (h a (List.mem_cons_self a t) (by rw [hf]; rfl))
    rw [List.foldl_cons, hstep]
    exact ih (fun k hkmem => h k (List.mem_cons_of_mem a hkmem))

theorem merge_article_data_idem (r e : List (String × α)) :
    merge_article_data (merge_article_data r e) e = merge_article_data r e := by
  unfold merge_article_data
  apply foldl_mergeStep_noop
  intro k hk hsome
  cases hf : dictFind? k e with
  | none => rw [hf] at hsome; simp at hsome
  | some v => exact foldl_mergeStep_hasKey_of_mem e enrichmentKeys r k v hk hf

theorem merge_article_data_preserves (r e : List (String × α)) (k : String)
    (h : dictHasKey k r = true) :
    dictFind? k (merge_article_data r e) = dictFind? k r :=
  foldl_mergeStep_find?_of_hasKey e enrichmentKeys r k h

theorem merge_article_data_copies (r e : List (String × α)) (k : String) (v : α)
    (hk : k ∈ enrichmentKeys) (hv : dictFind? k e = some v)
    (hr : dictHasKey k r = false) :
    dictFind? k (merge_article_data r e) = some v := by
  unfold merge_article_data
  have main : ∀ (ks : List String) (acc : List (String × α)), k ∈ ks →
      dictHasKey k acc = false →
      dictFind? k (ks.foldl (mergeStep e) acc) = some v := by
    intro ks
    induction ks with
    | nil => intro acc h _; cases h
    | cons a t ih =>
      intro acc hmem hacc
      rw [List.foldl_cons]
      by_cases ha : a = k
      · subst ha
        rw [foldl_mergeStep_find?_of_hasKey e t _ a (mergeStep_adds e acc a v hv)]
        exact mergeStep_adds_find? e acc a v hv hacc
      · have hmem' : k ∈ t := by
          rcases List.mem_cons.mp hmem with h' | h'
          · exact absurd h'.symm ha
          · exact h'
        refine ih _ hmem' ?_
        rw [mergeStep_hasKey_other e acc a k (by simpa using ha), hacc]
  exact main enrichmentKeys r hk hr

/-! ## Claim C2 -/

/-- C2: the field-enrichment merge of `add_data_to_articles` is
non-destructive and idempotent: for the fixed key set `{articleDesc,
createTime, sortingMark, suggestCover, top}`, a key is copied from the
index entry `e` into the record `r` exactly when `e` defines it and `r`
does not; no key already present in `r` changes its value, and
`merge (merge r e) e = merge r e`. -/
theorem enrichment_merge_nondestructive_idempotent
    (r e : List (String × String)) :
    merge_article_data (merge_article_data r e) e = merge_article_data r e ∧
    (∀ k, dictHasKey k r = true →
      dictFind? k (merge_article_data r e) = dictFind? k r) ∧
    (∀ k v, k ∈ enrichmentKeys → dictFind? k e = some v →
      dictHasKey k r = false →
      dictFind? k (merge_article_data r e) = some v) :=
  ⟨merge_article_data_idem r e,
   fun k h => merge_article_data_preserves r e k h,
   fun k v hk hv hr => merge_article_data_copies r e k v hk hv hr⟩

/-- C2 witness: a record already carrying `articleTitle` and `createTime`
merged with an index entry carrying a conflicting `createTime` and a new
`top`: the second merge is a no-op, the record's own `createTime` survives,
and `top` is copied across. -/
theorem enrichment_merge_nondestructive_idempotent_witness :
    merge_article_data (merge_article_data
        [("articleTitle", "T"), ("createTime", "2024-05-01 00:00:00")]
        [("createTime", "1999-01-01 00:00:00"), ("top", "1")])
        [("createTime", "1999-01-01 00:00:00"), ("top", "1")] =
      merge_article_data
        [("articleTitle", "T"), ("createTime", "2024-05-01 00:00:00")]
        [("createTime", "1999-01-01 00:00:00"), ("top", "1")] ∧
    dictFind? "createTime" (merge_article_data
        [("articleTitle", "T"), ("createTime", "2024-05-01 00:00:00")]
        [("createTime", "1999-01-01 00:00:00"), ("top", "1")]) =
      dictFind? "createTime"
        [("articleTitle", "T"), ("createTime", "2024-05-01 00:00:00")] ∧
    dictFind? "top" (merge_article_data
        [("articleTitle", "T"), ("createTime", "2024-05-01 00:00:00")]
        [("createTime", "1999-01-01 00:00:00"), ("top", "1")]) = some "1" :=
  ⟨(enrichment_merge_nondestructive_idempotent _ _).1,
   (enrichment_merge_nondestructive_idempotent _ _).2.1 "createTime" (by decide),
   (enrichment_merge_nondestructive_idempotent _ _).2.2 "top" "1"
     (by decide) (by decide) (by decide)⟩

/-! ## Claim C3 -/

/-- C3: the write-back guard of `add_data_to_articles` is dead code.
`old_article_data = article_data` aliases the very dict that the merge loop
then mutates in place, so `old_article_data != article_data` compares the
merged record with itself and is always false: the merged record is *never*
written back to the mirror, even when the merge added keys — here the merge
adds `createTime`, yet no write happens. -/
theorem add_data_write_back_is_never_true :
    (∀ r e : List (String × String), add_data_write_back r e = false) ∧
    merge_article_data [("articleTitle", "T")]
        [("createTime", "2024-05-01 00:00:00")] ≠ [("articleTitle", "T")] ∧
    add_data_write_back [("articleTitle", "T")]
        [("createTime", "2024-05-01 00:00:00")] = false :=
  ⟨fun r e => by simp [add_data_write_back], by decide, by decide⟩

/-! ## Sync planner (`main`, scrape.py 674-686) -/

/-- One entry of the remote `ArticleMenu.json` index, restricted to the
fields the planner and the batch timestamp processor read.  String-valued
in the model; a missing key is `none`. -/
structure MenuItem where
  articleId : Option String
  createTime : Option String
deriving DecidableEq

/-- Python truthiness of `item.get(key)` for a string-valued key: `None`
and the empty string are falsy. -/
def truthyStr : Option String → Bool
  | none => false
  | some s => !(s == "")

/-- The planner of `main`:
`article_ids = [str(item["articleId"]) for item in menu_data if item.get("articleId")]`
followed by
`new_article_ids = [i for i in article_ids if i not in existing_files]`. -/
def plan_new_article_ids (menu : List MenuItem) (existing : List String) :
    List String :=
  ((menu.filter (fun i => truthyStr i.articleId)).map
      (fun i => i.articleId.getD "")).filter
    (fun a => !(existing.contains a))

/-- The id list extracted from the remote index (the planner against an
empty mirror keeps every usable id). -/
theorem plan_empty_mirror (menu : List MenuItem) :
    plan_new_article_ids menu [] =
      (menu.filter (fun i => truthyStr i.articleId)).map
        (fun i => i.articleId.getD "") := by
  unfold plan_new_article_ids
  rw [List.filter_eq_self.mpr]
  intro a _
  rfl

/-! ## Claim C4 -/

/-- C4: the sync planner drops index entries whose id is missing or falsy
and returns exactly the ids of the remote index that are not yet in the
mirror, in remote index order: membership is characterised, the planner's
output is always a subsequence of the full-index id list (order
preservation), and on ids `a, b, c` with an empty mirror it returns
`[a, b, c]` while with mirror `{b}` it returns `[a, c]`. -/
theorem sync_planner_returns_missing_ids_in_order :
    (∀ (menu : List MenuItem) (existing : List String) (a : String),
      a ∈ plan_new_article_ids menu existing ↔
        ((∃ it ∈ menu, it.articleId = some a) ∧ a ≠ "" ∧ a ∉ existing)) ∧
    (∀ (menu : List MenuItem) (existing : List String),
      (plan_new_article_ids menu existing).Sublist
        (plan_new_article_ids menu [])) ∧
    plan_new_article_ids
      [⟨some "a", none⟩, ⟨some "b", none⟩, ⟨some "c", none⟩] [] =
        ["a", "b", "c"] ∧
    plan_new_article_ids
      [⟨some "a", none⟩, ⟨some "b", none⟩, ⟨some "c", none⟩] ["b"] =
        ["a", "c"] := by
  refine ⟨?_, ?_, by decide, by decide⟩
  · intro menu existing a
    unfold plan_new_article_ids
    simp only [List.mem_filter, List.mem_map, Bool.not_eq_true']
    constructor
    · rintro ⟨⟨it, ⟨hmem, htr⟩, rfl⟩, hcont⟩
      cases hid : it.articleId with
      | none => rw [hid] at htr; simp [truthyStr] at htr
      | some s =>
        rw [hid] at htr
        have hs : s ≠ "" := by
          simpa [truthyStr] using htr
        have hval : it.articleId.getD "" = s := by rw [hid]; rfl
        simp only [Option.getD_some]
        refine ⟨⟨it, hmem, hid⟩, hs, ?_⟩
        intro hmem2
        rw [hval] at hcont
        have hc2 : existing.contains s = true := by
          simp only [List.contains]
          exact List.elem_iff.mpr hmem2
        rw [hc2] at hcont
        exact Bool.noConfusion hcont
    · rintro ⟨⟨it, hmem, hid⟩, hne, hnot⟩
      have hval : it.articleId.getD "" = a := by rw [hid]; rfl
      refine ⟨⟨it, ⟨hmem, ?_⟩, hval⟩, ?_⟩
      · rw [hid]; simpa [truthyStr] using hne
      · cases hc : existing.contains a with
        | false => rfl
        | true => exact absurd (List.elem_iff.mp hc) hnot
  · intro menu existing
    rw [plan_empty_mirror]
    exact List.filter_sublist _

/-! ## History writer (`commit_file_with_timestamp`, scrape.py 123-183) -/

/-- Modelled from the spec: the external history-log collaborator (the git
backend of §6, not under src/) is an append-only list of commits, each
tying a file path to a commit timestamp.  `git log --follow <path>`
produces output exactly when some commit touches the path. -/
structure GitState where
  commits : List (String × Int)
deriving DecidableEq

/-- `git log --pretty=format:%H --follow <path>` yields non-empty output. -/
def git_log_has (st : GitState) (p : String) : Bool :=
  st.commits.any (fun c => c.1 == p)

/-- `commit_file_with_timestamp` (happy path): if the file already appears
in the log, return without writing; otherwise stage and commit once, with
the file's modification time as the commit time. -/
def commit_file_with_timestamp (st : GitState) (p : String) (mtime : Int) :
    GitState :=
  if git_log_has st p then st else ⟨st.commits ++ [(p, mtime)]⟩

/-- Number of history entries tied to a file. -/
def history_entries_for (st : GitState) (p : String) : Nat :=
  (st.commits.filter (fun c => c.1 == p)).length

/-! ## Claim C7 -/

/-- C7: the history writer creates at most one history entry per article
file: committing the same unchanged file twice equals committing it once
(the second call sees the entry and is a no-op), and two calls add at most
one entry to the log overall. -/
theorem history_writer_at_most_one_entry
    (st : GitState) (p : String) (t : Int) :
    commit_file_with_timestamp (commit_file_with_timestamp st p t) p t =
      commit_file_with_timestamp st p t ∧
    history_entries_for
        (commit_file_with_timestamp (commit_file_with_timestamp st p t) p t) p ≤
      history_entries_for st p + 1 := by
  cases h : git_log_has st p with
  | true =>
    constructor
    · simp [commit_file_with_timestamp, h]
    · simp [commit_file_with_timestamp, h]
  | false =>
    have h2 : git_log_has ⟨st.commits ++ [(p, t)]⟩ p = true := by
      simp [git_log_has, List.any_append]
    constructor
    · simp [commit_file_with_timestamp, h, h2]
    · simp only [commit_file_with_timestamp, h, Bool.false_eq_true, if_false,
        h2, if_true, history_entries_for, List.filter_append]
      simp [history_entries_for]

/-- C7 witness: an empty log, one file committed twice. -/
theorem history_writer_at_most_one_entry_witness :
    commit_file_with_timestamp
        (commit_file_with_timestamp ⟨[]⟩ "articles/1.json" 0)
        "articles/1.json" 0 =
      commit_file_with_timestamp ⟨[]⟩ "articles/1.json" 0 ∧
    history_entries_for
        (commit_file_with_timestamp
          (commit_file_with_timestamp ⟨[]⟩ "articles/1.json" 0)
          "articles/1.json" 0) "articles/1.json" ≤
      history_entries_for ⟨[]⟩ "articles/1.json" + 1 :=
  history_writer_at_most_one_entry ⟨[]⟩ "articles/1.json" 0

/-! ## Timestamps (`get_file_timestamp`, scrape.py 99-120)

`datetime.strptime(s, "%Y-%m-%d %H:%M:%S")` is modelled by the exact
regular expression CPython's `_strptime` builds for that format
(`%Y` = four digits, `%m` = `1[0-2]|0[1-9]|[1-9]`, `%d` =
`3[01]|[12]\d|0[1-9]|[1-9]`, `%H` = `2[0-3]|[0-1]\d|\d`, `%M` = `[0-5]\d|\d`,
`%S` = `6[0-1]|[0-5]\d|\d`, whole string consumed), followed by the
`datetime` constructor's calendar validation (year ≥ 1, day within the
month, second ≤ 59).  `.replace(tzinfo=UTC).timestamp()` is the epoch-second
count in the proleptic Gregorian calendar; the float is integral, so the
model uses `Int`. -/

/-- Decimal value of an ASCII digit. -/
def digitVal (c : Char) : Nat := c.toNat - 48

/-- `%Y`: exactly four digits. -/
def parseYear4 : List Char → Option (Nat × List Char)
  | a :: b :: c :: d :: rest =>
    if a.isDigit && b.isDigit && c.isDigit && d.isDigit then
      some (digitVal a * 1000 + digitVal b * 100 + digitVal c * 10 +
        digitVal d, rest)
    else none
  | _ => none

/-- `%m`: the alternation `1[0-2]|0[1-9]|[1-9]`, tried in that order. -/
def parseMonth2 : List Char → Option (Nat × List Char)
  | '1' :: c :: rest =>
    if '0' ≤ c && c ≤ '2' then some (10 + digitVal c, rest)
    else some (1, c :: rest)
  | '0' :: c :: rest =>
    if '1' ≤ c && c ≤ '9' then some (digitVal c, rest) else none
  | c :: rest =>
    if '1' ≤ c && c ≤ '9' then some (digitVal c, rest) else none
  | [] => none

/-- `%d`: the alternation `3[01]|[12]\d|0[1-9]|[1-9]`, tried in that
order. -/
def parseDay2 : List Char → Option (Nat × List Char)
  | '3' :: c :: rest =>
    if c = '0' || c = '1' then some (30 + digitVal c, rest)
    else some (3, c :: rest)
  | '1' :: c :: rest =>
    if c.isDigit then some (10 + digitVal c, rest) else some (1, c :: rest)
  | '2' :: c :: rest =>
    if c.isDigit then some (20 + digitVal c, rest) else some (2, c :: rest)
  | '0' :: c :: rest =>
    if '1' ≤ c && c ≤ '9' then some (digitVal c, rest) else none
  | c :: rest =>
    if '1' ≤ c && c ≤ '9' then some (digitVal c, rest) else none
  | [] => none

/-- `%H`: the alternation `2[0-3]|[0-1]\d|\d`, tried in that order. -/
def parseHour2 : List Char → Option (Nat × List Char)
  | '2' :: c :: rest =>
    if '0' ≤ c && c ≤ '3' then some (20 + digitVal c, rest)
    else some (2, c :: rest)
  | '0' :: c :: rest =>
    if c.isDigit then some (digitVal c, rest) else some (0, c :: rest)
  | '1' :: c :: rest =>
    if c.isDigit then some (10 + digitVal c, rest) else some (1, c :: rest)
  | c :: rest =>
    if c.isDigit then some (digitVal c, rest) else none
  | [] => none

/-- `%M`: the alternation `[0-5]\d|\d`, tried in that order. -/
def parseMinSec2 : List Char → Option (Nat × List Char)
  | a :: c :: rest =>
    if '0' ≤ a && a ≤ '5' && c.isDigit then
      some (digitVal a * 10 + digitVal c, rest)
    else if a.isDigit then some (digitVal a, c :: rest)
    else none
  | [a] => if a.isDigit then some (digitVal a, []) else none
  | [] => none

/-- `%S`: the alternation `6[0-1]|[0-5]\d|\d`, tried in that order. -/
def parseSec2 : List Char → Option (Nat × List Char)
  | '6' :: c :: rest =>
    if c = '0' || c = '1' then some (60 + digitVal c, rest)
    else some (6, c :: rest)
  | cs => parseMinSec2 cs

/-- Gregorian leap year. -/
def isLeapYear (y : Nat) : Bool :=
  (y % 4 = 0 && y % 100 ≠ 0) || y % 400 = 0

/-- Length of a month. -/
def daysInMonth (y m : Nat) : Nat :=
  if m = 2 then (if isLeapYear y then 29 else 28)
  else if m = 4 || m = 6 || m = 9 || m = 11 then 30
  else 31

/-- Days between 1970-01-01 and the given proleptic-Gregorian date
(Hinnant's `days_from_civil`, specialised to year ≥ 1). -/
def daysFromCivil (y m d : Nat) : Int :=
  let y' : Nat := if m ≤ 2 then y - 1 else y
  let era : Nat := y' / 400
  let yoe : Nat := y' - era * 400
  let mp : Nat := (m + 9) % 12
  let doy : Nat := (153 * mp + 2) / 5 + (d - 1)
  let doe : Nat := yoe * 365 + yoe / 4 - yoe / 100 + doy
  (era * 146097 + doe : Int) - 719468

/-- A literal character of the format string. -/
def expectChar (c : Char) : List Char → Option (List Char)
  | x :: rest => if x = c then some rest else none
  | [] => none

/-- `datetime.strptime(s, "%Y-%m-%d %H:%M:%S").replace(tzinfo=UTC).timestamp()`:
`none` models the `ValueError` of a failed parse or of `datetime`
construction. -/
def parseTimestamp (s : String) : Option Int := do
  let (y, r1) ← parseYear4 s.data
  let r2 ← expectChar '-' r1
  let (mo, r3) ← parseMonth2 r2
  let r4 ← expectChar '-' r3
  let (d, r5) ← parseDay2 r4
  let r6 ← expectChar ' ' r5
  let (h, r7) ← parseHour2 r6
  let r8 ← expectChar ':' r7
  let (mi, r9) ← parseMinSec2 r8
  let r10 ← expectChar ':' r9
  let (sec, r11) ← parseSec2 r10
  if !r11.isEmpty then none
  else if y = 0 then none
  else if d = 0 || daysInMonth y mo < d then none
  else if 59 < sec then none
  else some (daysFromCivil y mo d * 86400 + (h * 3600 + mi * 60 + sec : Nat))

/-- `get_file_timestamp` (scrape.py 99-120): empty string or `ValueError`
yields `0.0`, otherwise the Unix timestamp of the parsed UTC datetime. -/
def get_file_timestamp (s : String) : Int :=
  if s = "" then 0
  else match parseTimestamp s with
    | some t => t
    | none => 0

/-! ## Batch timestamp processing (`batch_process_timestamps`, scrape.py
241-285) -/

/-- The `timestamp_map` dict built at scrape.py 250-255: iterate the menu,
`article_id = str(item.get("articleId", ""))`, keep pairs whose id and
`createTime` are truthy; Python dict insertion order is first-occurrence
order, later duplicates only overwrite the value in place. -/
def timestamp_map (menu : List MenuItem) : List (String × String) :=
  menu.foldl (fun acc it =>
    let aid := it.articleId.getD ""
    if aid ≠ "" && truthyStr it.createTime then
      dictSet aid (it.createTime.getD "") acc
    else acc) []

/-- The `files_to_update` list built at scrape.py 260-274, iterated in
`timestamp_map` order: the file (keyed here by article id; the path is
`articles/<id>.json`) must exist (`mtime` is its stat, `none` when
missing), the expected timestamp must parse to a non-zero value, and the
actual modification time must differ by more than the 1-second tolerance.
This is also the processing order of the update-and-commit loop at lines
279-285. -/
def files_to_update (menu : List MenuItem) (mtime : String → Option Int) :
    List (String × String) :=
  (timestamp_map menu).filter (fun p =>
    match mtime p.1 with
    | none => false
    | some actual =>
      let expected := get_file_timestamp p.2
      if expected = 0 then false
      else decide (1 < (actual - expected).natAbs))

/-! ## Feed assembly (`create_atom_feeds` / `generate_atom_feed`,
scrape.py 364-592) -/

/-- An article record as read from `articles/<id>.json`: a JSON object,
modelled as an insertion-ordered dict with string values. -/
abbrev Record := List (String × String)

/-- Python `article.get(key, default)`. -/
def recGet (r : Record) (k d : String) : String := (dictFind? k r).getD d

/-- The sort key of `create_atom_feeds` (scrape.py 565-569):
`get_file_timestamp(x.get("createTime", ""))`. -/
def articleSortKey (r : Record) : Int := get_file_timestamp (recGet r "createTime" "")

/-- `sorted(menu_data, key=..., reverse=True)`: Python's sort is stable, and
`reverse=True` reverses each comparison while keeping equal-key elements in
input order; a stable insertion sort on `key b ≤ key a` is extensionally
the same function. -/
def pySortedByKeyDesc (key : α → Int) (l : List α) : List α :=
  l.insertionSort (fun a b => key b ≤ key a)

/-- `articles_sorted` of `create_atom_feeds`. -/
def sortArticlesByCreateTimeDesc (l : List Record) : List Record :=
  pySortedByKeyDesc articleSortKey l

/-- One `<entry>` of the Atom feed, restricted to the fields the claims
are about.  `published` is the parsed `createTime` when present. -/
structure FeedEntry where
  id : String
  title : String
  published : Option Int
deriving DecidableEq

/-- The `entry_id` expression of `generate_atom_feed` (scrape.py 387-392).
`pyHash` is Python's built-in `hash` on `str`: since Python 3.3 it is
siphash keyed by a per-process random salt (`PYTHONHASHSEED`), so the
embedding takes the process's hash function as a parameter — each run of
the scraper corresponds to one choice of `pyHash`. -/
def entry_id_of (pyHash : String → Int) (r : Record) : String :=
  let aid := recGet r "articleId" ""
  if aid ≠ "" then "urn:article:" ++ aid
  else "urn:wutheringwaves:unknown-article-" ++
    toString (pyHash (recGet r "articleTitle" "" ++ recGet r "createTime" ""))

/-- Entry construction for one article (scrape.py 384-511, restricted to
id/title/published).  A non-empty `createTime` is fed to
`datetime.strptime` with *no* surrounding `try` (line 488): a parse failure
raises `ValueError` out of `generate_atom_feed`, modelled as `none`. -/
def mk_feed_entry (pyHash : String → Int) (r : Record) : Option FeedEntry :=
  let ct := recGet r "createTime" ""
  if ct = "" then some ⟨entry_id_of pyHash r, recGet r "articleTitle" "No Title", none⟩
  else match parseTimestamp ct with
    | none => none
    | some t => some ⟨entry_id_of pyHash r, recGet r "articleTitle" "No Title", some t⟩

/-- The entry list assembled by `generate_atom_feed`'s `for` loop, in input
order.  The `latest_entry` computation (scrape.py 379-382) also calls
`strptime` unguarded on the first article's non-empty `createTime`, so it
too can raise. -/
def generate_atom_feed_entries (pyHash : String → Int) (articles : List Record) :
    Option (List FeedEntry) :=
  match articles with
  | [] => some []
  | a :: _ =>
    let le := recGet a "createTime" ""
    if le = "" then articles.mapM (mk_feed_entry pyHash)
    else match parseTimestamp le with
      | none => none
      | some _ => articles.mapM (mk_feed_entry pyHash)

/-- `create_atom_feeds` for the full feed: sort all records by descending
`createTime`, then assemble entries in that order. -/
def create_atom_feed_entries (pyHash : String → Int) (menu : List Record) :
    Option (List FeedEntry) :=
  generate_atom_feed_entries pyHash (sortArticlesByCreateTimeDesc menu)

/-! ## Claim C5 -/

/-- C5 counterexample: with the claim's own createTime values
`2024-01-01`, `2024-03-01`, `2024-02-01` — date-only strings, which
`strptime("%Y-%m-%d %H:%M:%S")` rejects — every sort key is `0.0`, so the
stable sort leaves the input order `Jan, Mar, Feb` unchanged instead of
producing `Mar, Feb, Jan`; moreover `generate_atom_feed` then crashes on
the unguarded `strptime` call (line 488), so no entries are emitted at
all. -/
theorem feed_ordering_counterexample :
    sortArticlesByCreateTimeDesc
      [[("articleTitle", "A"), ("createTime", "2024-01-01")],
       [("articleTitle", "B"), ("createTime", "2024-03-01")],
       [("articleTitle", "C"), ("createTime", "2024-02-01")]] =
      [[("articleTitle", "A"), ("createTime", "2024-01-01")],
       [("articleTitle", "B"), ("createTime", "2024-03-01")],
       [("articleTitle", "C"), ("createTime", "2024-02-01")]] ∧
    sortArticlesByCreateTimeDesc
      [[("articleTitle", "A"), ("createTime", "2024-01-01")],
       [("articleTitle", "B"), ("createTime", "2024-03-01")],
       [("articleTitle", "C"), ("createTime", "2024-02-01")]] ≠
      [[("articleTitle", "B"), ("createTime", "2024-03-01")],
       [("articleTitle", "C"), ("createTime", "2024-02-01")],
       [("articleTitle", "A"), ("createTime", "2024-01-01")]] ∧
    create_atom_feed_entries (fun _ => 0)
      [[("articleTitle", "A"), ("createTime", "2024-01-01")],
       [("articleTitle", "B"), ("createTime", "2024-03-01")],
       [("articleTitle", "C"), ("createTime", "2024-02-01")]] = none :=
  ⟨by decide, by decide, by decide⟩

/-- C5 amended: feed assembly sorts the records by `createTime` key
descending (stably; parse failures get key `0.0`, the epoch — not the
oldest possible value — so they sort below any post-1970 timestamp), and
this order is the order of the emitted entries, which exist only when
every non-empty `createTime` parses; the claim's example order
`Mar, Feb, Jan` holds once the createTimes are full
`%Y-%m-%d %H:%M:%S` timestamps. -/
theorem feed_ordering_amended :
    (∀ l : List Record,
      (sortArticlesByCreateTimeDesc l).Pairwise
        (fun a b => articleSortKey b ≤ articleSortKey a) ∧
      (sortArticlesByCreateTimeDesc l).Perm l) ∧
    sortArticlesByCreateTimeDesc
      [[("articleId", "1"), ("articleTitle", "A"),
        ("createTime", "2024-01-01 00:00:00")],
       [("articleId", "2"), ("articleTitle", "B"),
        ("createTime", "2024-03-01 00:00:00")],
       [("articleId", "3"), ("articleTitle", "C"),
        ("createTime", "2024-02-01 00:00:00")]] =
      [[("articleId", "2"), ("articleTitle", "B"),
        ("createTime", "2024-03-01 00:00:00")],
       [("articleId", "3"), ("articleTitle", "C"),
        ("createTime", "2024-02-01 00:00:00")],
       [("articleId", "1"), ("articleTitle", "A"),
        ("createTime", "2024-01-01 00:00:00")]] ∧
    create_atom_feed_entries (fun _ => 0)
      [[("articleId", "1"), ("articleTitle", "A"),
        ("createTime", "2024-01-01 00:00:00")],
       [("articleId", "2"), ("articleTitle", "B"),
        ("createTime", "2024-03-01 00:00:00")],
       [("articleId", "3"), ("articleTitle", "C"),
        ("createTime", "2024-02-01 00:00:00")]] =
      some [⟨"urn:article:2", "B", some 1709251200⟩,
            ⟨"urn:article:3", "C", some 1706745600⟩,
            ⟨"urn:article:1", "A", some 1704067200⟩] := by
  refine ⟨?_, by decide, by decide⟩
  intro l
  constructor
  · haveI : IsTotal Record (fun a b => articleSortKey b ≤ articleSortKey a) :=
      ⟨fun a b => le_total (articleSortKey b) (articleSortKey a)⟩
    haveI : IsTrans Record (fun a b => articleSortKey b ≤ articleSortKey a) :=
      ⟨fun _ _ _ hab hbc => le_trans hbc hab⟩
    exact List.sorted_insertionSort _ l
  · exact List.perm_insertionSort _ l

/-! ## Claim C8 -/

/-- C8: the fallback entry id for a record without an article id is
`urn:wutheringwaves:unknown-article-<hash(title + createTime)>`, where
`hash` is Python's salted per-process string hash: two runs of feed
assembly (two processes, hence two hash functions) produce *different*
fallback ids for the identical input record, contradicting the claimed
run-to-run determinism.  The two constant functions stand for the string
hash under two values of the process salt `PYTHONHASHSEED`. -/
theorem fallback_entry_id_depends_on_process_hash :
    entry_id_of (fun _ => 0) [("articleTitle", "T")] ≠
      entry_id_of (fun _ => 1) [("articleTitle", "T")] ∧
    entry_id_of (fun _ => 0) [("articleTitle", "T")] =
      "urn:wutheringwaves:unknown-article-0" ∧
    (∀ pyHash : String → Int,
      entry_id_of pyHash [("articleId", "42"), ("articleTitle", "T")] =
        "urn:article:42") :=
  ⟨by decide, by decide, fun pyHash => by rfl⟩

/-! ## Claim C10 -/

/-- C10 counterexample: a menu listing article `1`
(createTime 2024-01-02) before article `2` (createTime 2024-01-01), both
present on disk with stale mtime 0, is processed in menu order `[1, 2]`
— the *newer* article first — not oldest-created-first. -/
theorem history_batch_order_counterexample :
    (files_to_update
        [⟨some "1", some "2024-01-02 00:00:00"⟩,
         ⟨some "2", some "2024-01-01 00:00:00"⟩]
        (fun _ => some 0)).map Prod.fst = ["1", "2"] ∧
    get_file_timestamp "2024-01-01 00:00:00" <
      get_file_timestamp "2024-01-02 00:00:00" :=
  ⟨by decide, by decide⟩

/-- C10 amended: the files selected by `batch_process_timestamps` are
processed in `timestamp_map` order — the first-occurrence order of the
remote index — not sorted by `createTime`; the selection is a subsequence
of that map, and a newer-first index is processed newer-first. -/
theorem history_batch_order_amended :
    (∀ (menu : List MenuItem) (mtime : String → Option Int),
      (files_to_update menu mtime).Sublist (timestamp_map menu)) ∧
    files_to_update
        [⟨some "1", some "2024-01-02 00:00:00"⟩,
         ⟨some "2", some "2024-01-01 00:00:00"⟩]
        (fun _ => some 0) =
      [("1", "2024-01-02 00:00:00"), ("2", "2024-01-01 00:00:00")] :=
  ⟨fun _ _ => List.filter_sublist _, by decide⟩

/-! ## Markdown normalization pipeline (`generate_atom_feed`,
scrape.py 412-480, with `handle_stars` 326-361 and
`format_discord_links` 288-323)

Each `re.sub` of the source is embedded as a left-to-right scanner over
the character list: at each position the specific pattern is attempted
(the patterns involved are deterministic — every greedy sub-pattern is
followed by a character it can never match, so no backtracking arises
except the documented `\s*$` tail, resolved to its rightmost feasible
position), a match emits its replacement and scanning resumes after the
match, exactly as `re.sub` does. -/

/-- Python `str.splitlines()` (line boundaries `\r\n`, `\r`, `\n`, `\v`,
`\f`, FS/GS/RS, NEL, LINE/PARAGRAPH SEPARATOR; no trailing empty line). -/
def isLineBreakChar (c : Char) : Bool :=
  c = '\n' || c = '\r' || c.toNat = 0x0b || c.toNat = 0x0c ||
  c.toNat = 0x1c || c.toNat = 0x1d || c.toNat = 0x1e || c.toNat = 0x85 ||
  c.toNat = 0x2028 || c.toNat = 0x2029

/-- Worker for `splitlines`: accumulates the current line reversed. -/
def pySplitlinesAux : List Char → List Char → List (List Char)
  | [], cur => if cur.isEmpty then [] else [cur.reverse]
  | '\r' :: '\n' :: rest, cur => cur.reverse :: pySplitlinesAux rest []
  | c :: rest, cur =>
    if isLineBreakChar c then cur.reverse :: pySplitlinesAux rest []
    else pySplitlinesAux rest (c :: cur)

/-- Whether the first list is an initial segment of the second
(`str.startswith`). -/
def leadMatches : List Char → List Char → Bool
  | [], _ => true
  | _ :: _, [] => false
  | a :: as, b :: bs => a == b && leadMatches as bs

/-- `str.removeprefix`. -/
def removeLead (pre cs : List Char) : List Char :=
  if leadMatches pre cs then cs.drop pre.length else cs

/-- `str.endswith`. -/
def listEndsWith (suf cs : List Char) : Bool :=
  leadMatches suf.reverse cs.reverse

/-- `str.removesuffix`. -/
def removeTrail (suf cs : List Char) : List Char :=
  if listEndsWith suf cs then cs.take (cs.length - suf.length) else cs

/-- `handle_stars` (scrape.py 326-361): strip, split into lines, strip each
line, fold `✦ Title ✦` and `**✦ Title ✦**` into `# Title`, a bare leading
`✦` into a `* ` bullet, drop blank lines, and rejoin with a blank line
between every two surviving lines. -/
def handle_stars (text : String) : String :=
  let lines := pySplitlinesAux (pyStripList text.data) []
  let output : List (List Char) := lines.filterMap (fun l0 =>
    let l := pyStripList l0
    if leadMatches ['✦'] l && listEndsWith ['✦'] l then
      some ('#' :: ' ' :: pyStripList (removeTrail ['✦'] (removeLead ['✦'] l)))
    else if leadMatches ['*', '*', '✦'] l && listEndsWith ['✦', '*', '*'] l then
      some ('#' :: ' ' ::
        pyStripList (removeTrail ['✦', '*', '*'] (removeLead ['*', '*', '✦'] l)))
    else if leadMatches ['✦'] l then
      some ('*' :: ' ' :: pyStripList (removeLead ['✦'] l))
    else if l.isEmpty then none
    else some l)
  ⟨List.intercalate ['\n', '\n'] output⟩

/-- `re.sub` as a scanner: `try1` attempts a match at the current position
and returns the replacement text plus the unconsumed remainder (always
strictly shorter, every pattern here consumes at least one character). -/
def scanSub (try1 : List Char → Option (List Char × List Char)) :
    Nat → List Char → List Char
  | 0, cs => cs
  | fuel + 1, cs =>
    match cs with
    | [] => []
    | c :: rest =>
      match try1 (c :: rest) with
      | some (rep, rest') => rep ++ scanSub try1 fuel rest'
      | none => c :: scanSub try1 fuel rest

/-- `re.sub` with `re.MULTILINE` for a `^`-anchored pattern: the match is
attempted only at line starts.  Every anchored pattern used here ends at a
`$` position (end of string or just before a newline), so the position
after a replacement is never a line start. -/
def scanSubML (try1 : List Char → Option (List Char × List Char)) :
    Nat → Bool → List Char → List Char
  | 0, _, cs => cs
  | fuel + 1, atStart, cs =>
    match cs with
    | [] => []
    | c :: rest =>
      match if atStart then try1 (c :: rest) else none with
      | some (rep, rest') => rep ++ scanSubML try1 fuel false rest'
      | none => c :: scanSubML try1 fuel (c = '\n') rest

/-- The suffix of `w` starting at its last `'\n'`, when any. -/
def lastNewlineSplit : List Char → Option (List Char)
  | [] => none
  | c :: rest =>
    match lastNewlineSplit rest with
    | some t => some t
    | none => if c = '\n' then some (c :: rest) else none

/-- Tail `\s*$` of the MULTILINE patterns: greedy whitespace, then `$`
(end of string, or a zero-width match just before a `'\n'`; the greedy run
backtracks to the rightmost feasible `$`).  Returns the remainder after the
match end, or `none` when no `$` position lies in the whitespace run. -/
def matchDollar (r : List Char) : Option (List Char) :=
  let w := r.takeWhile isPyWs
  let rest := r.drop w.length
  if rest.isEmpty then some []
  else
    match lastNewlineSplit w with
    | some t => some (t ++ rest)
    | none => none

/-- Stage: `re.sub(r"\xa0", " ", ...)` — NO-BREAK SPACE to space
(scrape.py 413). -/
def removeXa0 (s : String) : String :=
  ⟨s.data.map (fun c => if c.toNat = 0xa0 then ' ' else c)⟩

/-- Stage: `.replace(" ", " ")` (scrape.py 416-419; the literal is
U+00A0 again, so this repeats the previous stage). -/
def nbspReplace (s : String) : String :=
  ⟨s.data.map (fun c => if c.toNat = 0xa0 then ' ' else c)⟩

/-- Match of `` ```[ \t]*\n[ \t]*\n``` `` at the current position
(scrape.py 422-426). -/
def tryEmptyCodeBlock (cs : List Char) : Option (List Char × List Char) :=
  match cs with
  | '`' :: '`' :: '`' :: r1 =>
    let r2 := r1.dropWhile (fun c => c = ' ' || c = '\t')
    match r2 with
    | '\n' :: r3 =>
      let r4 := r3.dropWhile (fun c => c = ' ' || c = '\t')
      match r4 with
      | '\n' :: '`' :: '`' :: '`' :: r5 => some ([], r5)
      | _ => none
    | _ => none
  | _ => none

/-- Stage: remove fenced code blocks containing only whitespace. -/
def removeEmptyCodeBlocks (s : String) : String :=
  ⟨scanSub tryEmptyCodeBlock (s.data.length + 1) s.data⟩

/-- Match of `^\s*\[([^\]]+)\]\s*$` (MULTILINE) at a line start
(scrape.py 429-434), replacement `# \1`. -/
def trySquareBracketHeader (cs : List Char) : Option (List Char × List Char) :=
  let ws := cs.takeWhile isPyWs
  match cs.drop ws.length with
  | '[' :: r2 =>
    let label := r2.takeWhile (fun c => c ≠ ']')
    if label.isEmpty then none
    else
      match r2.drop label.length with
      | ']' :: r3 =>
        (matchDollar r3).map (fun rest' => ('#' :: ' ' :: label, rest'))
      | _ => none
  | _ => none

/-- Stage: a line containing only `[Text]` becomes `# Text`. -/
def squareBracketHeaders (s : String) : String :=
  ⟨scanSubML trySquareBracketHeader (s.data.length + 1) true s.data⟩

/-- Match of `●\s*(.*?)\n` (scrape.py 439) at the current position,
replacement `\n\n## \1\n\n`.  The greedy `\s*` takes its maximal run; when
no `'\n'` follows that run the run backtracks to its own last `'\n'`
(group empty). -/
def tryBallHeader (cs : List Char) : Option (List Char × List Char) :=
  match cs with
  | '●' :: rest =>
    let w := rest.takeWhile isPyWs
    let tail := rest.drop w.length
    if tail.any (fun c => c = '\n') then
      let group := tail.takeWhile (fun c => c ≠ '\n')
      some ('\n' :: '\n' :: '#' :: '#' :: ' ' :: group ++ ['\n', '\n'],
        (tail.drop group.length).drop 1)
    else
      match lastNewlineSplit w with
      | some (_ :: t) =>
        some (['\n', '\n', '#', '#', ' ', '\n', '\n'], t ++ tail)
      | _ => none
  | _ => none

/-- Stage: `● Word` becomes a `## Word` section surrounded by blank
lines. -/
def ballHeaders (s : String) : String :=
  ⟨scanSub tryBallHeader (s.data.length + 1) s.data⟩

/-- Match at a line start of `^\s*<marker>\s*(.*?)\s*$` (MULTILINE) — with
`needNonWs` for the `※` pattern whose group is `(\S.*?)`.  The group is the
current line's content with trailing whitespace trimmed (the lazy group's
minimal feasible extent); the match ends at the rightmost `$` of the
trailing whitespace run. -/
def tryMarkerLine (marker : Char) (needNonWs : Bool)
    (mkRepl : List Char → List Char) (cs : List Char) :
    Option (List Char × List Char) :=
  let ws := cs.takeWhile isPyWs
  match cs.drop ws.length with
  | m :: r2 =>
    if m = marker then
      let w2 := r2.takeWhile isPyWs
      let r3 := r2.drop w2.length
      if r3.isEmpty then
        if needNonWs then none else some (mkRepl [], [])
      else
        let lineContent := r3.takeWhile (fun c => c ≠ '\n')
        let group := (lineContent.reverse.dropWhile isPyWs).reverse
        (matchDollar (r3.drop group.length)).map (fun rest' =>
          (mkRepl group, rest'))
    else none
  | [] => none

/-- Stage: `^\s*※\s*(\S.*?)\s*$` → `\n\n*\1*\n\n` (scrape.py 442-447). -/
def referenceMarks (s : String) : String :=
  ⟨scanSubML
    (tryMarkerLine '※' true (fun g => '\n' :: '\n' :: '*' :: g ++ ['*', '\n', '\n']))
    (s.data.length + 1) true s.data⟩

/-- The `number_symbol` table of scrape.py 450-461. -/
def circledNumeralTable : List (Char × List Char) :=
  [('①', ['1']), ('②', ['2']), ('③', ['3']), ('④', ['4']), ('⑤', ['5']),
   ('⑥', ['6']), ('⑦', ['7']), ('⑧', ['8']), ('⑨', ['9']), ('⑩', ['1', '0'])]

/-- Stage: ten successive `re.sub` passes, one per circled numeral
(scrape.py 462-468): `^\s*<glyph>\s*(.*?)\s*$` → `\n\n<n>. \1\n\n`. -/
def circledNumerals (s : String) : String :=
  circledNumeralTable.foldl (fun acc p =>
    ⟨scanSubML
      (tryMarkerLine p.1 false
        (fun g => '\n' :: '\n' :: p.2 ++ '.' :: ' ' :: g ++ ['\n', '\n']))
      (acc.data.length + 1) true acc.data⟩) s

/-- Match of `\\\*(.*)` (scrape.py 470) at the current position,
replacement `* \1`. -/
def tryEscapedStar (cs : List Char) : Option (List Char × List Char) :=
  match cs with
  | '\\' :: '*' :: rest =>
    let group := rest.takeWhile (fun c => c ≠ '\n')
    some ('*' :: ' ' :: group, rest.drop group.length)
  | _ => none

/-- Stage: a backslash-escaped asterisk plus the rest of the line becomes
a `* ` bullet line. -/
def spaceBeforeStar (s : String) : String :=
  ⟨scanSub tryEscapedStar (s.data.length + 1) s.data⟩

/-- ASCII punctuation, the characters a CommonMark backslash escape can
precede (`!` through `/`, `:` through `@`, `[` through backtick, left brace
through `~`). -/
def isAsciiPunct (c : Char) : Bool :=
  let n := c.toNat
  (0x21 ≤ n && n ≤ 0x2f) || (0x3a ≤ n && n ≤ 0x40) ||
  (0x5b ≤ n && n ≤ 0x60) || (0x7b ≤ n && n ≤ 0x7e)

/-- Hexadecimal digit. -/
def isHexDigitChar (c : Char) : Bool :=
  c.isDigit || ('a' ≤ c && c ≤ 'f') || ('A' ≤ c && c ≤ 'F')

/-- Value of a hexadecimal digit. -/
def hexDigitVal (c : Char) : Nat :=
  if c.isDigit then digitVal c
  else if 'a' ≤ c && c ≤ 'f' then c.toNat - 87
  else c.toNat - 55

/-- The character denoted by a numeric character reference: out-of-range,
zero and surrogate code points become U+FFFD (CommonMark). -/
def refCharOfNat (n : Nat) : Char :=
  if n = 0 || 0x10FFFF < n || (0xD800 ≤ n && n ≤ 0xDFFF) then '�'
  else Char.ofNat n

/-- A character reference immediately after an `&`, as resolved by the
markdown-it parser inside mdformat: numeric decimal (`&#1234;`), numeric
hexadecimal (`&#x1F4A9;`), or one of the named entities the scraper's own
escaping stage can produce (plus the common `quot`/`apos`/`nbsp`); other
names are left unresolved as literal text, as markdown-it does for
non-HTML5 entity names. -/
def charReferenceAfterAmp : List Char → Option (Char × List Char)
  | '#' :: 'x' :: rest =>
    let ds := rest.takeWhile isHexDigitChar
    if 1 ≤ ds.length && ds.length ≤ 6 then
      match rest.drop ds.length with
      | ';' :: r2 => some (refCharOfNat (ds.foldl (fun n c => n * 16 + hexDigitVal c) 0), r2)
      | _ => none
    else none
  | '#' :: 'X' :: rest =>
    let ds := rest.takeWhile isHexDigitChar
    if 1 ≤ ds.length && ds.length ≤ 6 then
      match rest.drop ds.length with
      | ';' :: r2 => some (refCharOfNat (ds.foldl (fun n c => n * 16 + hexDigitVal c) 0), r2)
      | _ => none
    else none
  | '#' :: rest =>
    let ds := rest.takeWhile Char.isDigit
    if 1 ≤ ds.length && ds.length ≤ 7 then
      match rest.drop ds.length with
      | ';' :: r2 => some (refCharOfNat (ds.foldl (fun n c => n * 10 + digitVal c) 0), r2)
      | _ => none
    else none
  | 'a' :: 'm' :: 'p' :: ';' :: rest => some ('&', rest)
  | 'a' :: 'p' :: 'o' :: 's' :: ';' :: rest => some ('\'', rest)
  | 'l' :: 't' :: ';' :: rest => some ('<', rest)
  | 'g' :: 't' :: ';' :: rest => some ('>', rest)
  | 'q' :: 'u' :: 'o' :: 't' :: ';' :: rest => some ('"', rest)
  | 'n' :: 'b' :: 's' :: 'p' :: ';' :: rest => some ('\xa0', rest)
  | _ => none

/-- Whether the text after an `&` completes mdformat's syntactic
character-reference pattern
`&(#[0-9]{1,7}|#[Xx][0-9a-fA-F]{1,6}|[A-Za-z][A-Za-z0-9]{1,31});`
(the renderer's `RE_CHAR_REFERENCE`). -/
def isRefPatternAfterAmp (cs : List Char) : Bool :=
  match cs with
  | '#' :: c :: rest =>
    if c = 'x' || c = 'X' then
      let ds := rest.takeWhile isHexDigitChar
      1 ≤ ds.length && ds.length ≤ 6 &&
        (match rest.drop ds.length with | ';' :: _ => true | _ => false)
    else
      let ds := (c :: rest).takeWhile Char.isDigit
      1 ≤ ds.length && ds.length ≤ 7 &&
        (match (c :: rest).drop ds.length with | ';' :: _ => true | _ => false)
  | c :: rest =>
    if c.isAlpha then
      let nm := rest.takeWhile (fun d => d.isAlpha || d.isDigit)
      1 ≤ nm.length && nm.length ≤ 31 &&
        (match rest.drop nm.length with | ';' :: _ => true | _ => false)
    else false
  | [] => false

/-- The parse half of mdformat's round trip (markdown-it inline parsing of
text): a backslash before ASCII punctuation escapes it to the literal
character, and character references resolve to the character they name. -/
def parseInlineText : Nat → List Char → List Char
  | 0, cs => cs
  | fuel + 1, cs =>
    match cs with
    | [] => []
    | '\\' :: c :: rest =>
      if isAsciiPunct c then c :: parseInlineText fuel rest
      else '\\' :: parseInlineText fuel (c :: rest)
    | '&' :: rest =>
      match charReferenceAfterAmp rest with
      | some (ch, rest') => ch :: parseInlineText fuel rest'
      | none => '&' :: parseInlineText fuel rest
    | c :: rest => c :: parseInlineText fuel rest

/-- The render half of mdformat's round trip: a literal text sequence that
matches the character-reference pattern would be re-parsed as a reference,
so the renderer backslash-escapes its ampersand (mdformat's
`RE_CHAR_REFERENCE` escape); a bare ampersand that starts no reference is
emitted unescaped. -/
def renderInlineText : List Char → List Char
  | [] => []
  | '&' :: rest =>
    if isRefPatternAfterAmp rest then '\\' :: '&' :: renderInlineText rest
    else '&' :: renderInlineText rest
  | c :: rest => c :: renderInlineText rest

/-- Modelled from the spec and the documented behaviour of the external
library: stage 8, `mdformat.text(..., options={"number": True})`
(scrape.py 472-477; mdformat is not part of src/).  A blank document
renders as the empty string; otherwise the document is emitted stripped
with exactly one trailing newline, after the markdown-it/mdformat round
trip on text: backslash escapes and character references resolve on parse
(`&amp;` becomes `&`), and the renderer backslash-protects literal
character-reference patterns so they survive re-parsing (a literal `&lt;`
in the text is emitted as `\&lt;`).  The model covers the text documents
the surrounding theorems feed it; block structure it does not reformat. -/
def mdformat_text (s : String) : String :=
  if s.data.all isPyWs then ""
  else
    ⟨renderInlineText (parseInlineText (s.data.length + 1) (pyStripList s.data)) ++
      ['\n']⟩

/-- `https?://` of the link patterns. -/
def takeUrlScheme (cs : List Char) : Option (List Char × List Char) :=
  match cs with
  | 'h' :: 't' :: 't' :: 'p' :: 's' :: ':' :: '/' :: '/' :: rest =>
    some (['h', 't', 't', 'p', 's', ':', '/', '/'], rest)
  | 'h' :: 't' :: 't' :: 'p' :: ':' :: '/' :: '/' :: rest =>
    some (['h', 't', 't', 'p', ':', '/', '/'], rest)
  | _ => none

/-- The class `[^\s)]` of the link patterns. -/
def isUrlChar (c : Char) : Bool := !isPyWs c && c ≠ ')'

/-- The `repl` callback of the first substitution in
`format_discord_links` (scrape.py 302-305): the display text is the URL
with `^https?://(www\.)?` stripped, and the link is rebuilt as
`[display](url)`. -/
def stripUrlDisplay (url : List Char) : List Char :=
  match takeUrlScheme url with
  | some (_, r) => if leadMatches ['w', 'w', 'w', '.'] r then r.drop 4 else r
  | none => url

/-- Match of `\[([^\]]+)\]\((https?://[^\s)]+) "\2"\)` (scrape.py
309-313): note the backreference is `\2` — the quoted title must equal the
*URL*, not the anchor text. -/
def tryTitledLink (cs : List Char) : Option (List Char × List Char) :=
  match cs with
  | '[' :: r1 =>
    let label := r1.takeWhile (fun c => c ≠ ']')
    if label.isEmpty then none
    else
      match r1.drop label.length with
      | ']' :: '(' :: r2 =>
        match takeUrlScheme r2 with
        | some (scheme, r3) =>
          let urlTail := r3.takeWhile isUrlChar
          if urlTail.isEmpty then none
          else
            let url := scheme ++ urlTail
            match r3.drop urlTail.length with
            | ' ' :: '"' :: r4 =>
              if leadMatches url r4 then
                match r4.drop url.length with
                | '"' :: ')' :: r5 =>
                  some ('[' :: stripUrlDisplay url ++ ']' :: '(' :: url ++ [')'], r5)
                | _ => none
              else none
            | _ => none
        | none => none
      | _ => none
  | _ => none

/-- Match of `\[([^\]]+)\]\((https?://[^\s)]+)\)` (scrape.py 317-321),
replacement `[\1](<\2>)`. -/
def tryBareLink (cs : List Char) : Option (List Char × List Char) :=
  match cs with
  | '[' :: r1 =>
    let label := r1.takeWhile (fun c => c ≠ ']')
    if label.isEmpty then none
    else
      match r1.drop label.length with
      | ']' :: '(' :: r2 =>
        match takeUrlScheme r2 with
        | some (scheme, r3) =>
          let urlTail := r3.takeWhile isUrlChar
          if urlTail.isEmpty then none
          else
            let url := scheme ++ urlTail
            match r3.drop urlTail.length with
            | ')' :: r4 =>
              some ('[' :: label ++ ']' :: '(' :: '<' :: url ++ ['>', ')'], r4)
            | _ => none
        | none => none
      | _ => none
  | _ => none

/-- `format_discord_links` (scrape.py 288-323): first rewrite links whose
quoted title equals their URL, then wrap every bare link's URL in angle
brackets. -/
def format_discord_links (md : String) : String :=
  let d1 := scanSub tryTitledLink (md.data.length + 1) md.data
  ⟨scanSub tryBareLink (d1.length + 1) d1⟩

/-- Modelled from the spec: stage 11, `markupsafe.escape` (scrape.py 480,
external library) — HTML/XML escaping of `& < > ' "`. -/
def escapeChar (c : Char) : List Char :=
  if c = '&' then ['&', 'a', 'm', 'p', ';']
  else if c = '<' then ['&', 'l', 't', ';']
  else if c = '>' then ['&', 'g', 't', ';']
  else if c = '\'' then ['&', '#', '3', '9', ';']
  else if c = '"' then ['&', '#', '3', '4', ';']
  else [c]

/-- HTML/XML escaping of the whole text. -/
def escapeHtml (s : String) : String := ⟨(s.data.map escapeChar).flatten⟩

/-- The normalization stages of `generate_atom_feed` in source order
(scrape.py 412-479): whitespace canonicalization, empty-code-block
removal, bracketed pseudo-headers, star folding, ball sections, reference
marks, circled numerals, escaped stars, canonical re-formatting, link
simplification. -/
def normalizeContent (s : String) : String :=
  format_discord_links (mdformat_text (spaceBeforeStar (circledNumerals
    (referenceMarks (ballHeaders (handle_stars (squareBracketHeaders
      (removeEmptyCodeBlocks (nbspReplace (removeXa0 s))))))))))

/-- The full normalizer of the claim: the stage sequence ending in the
escaping step (scrape.py 480). -/
def normalizeAndEscape (s : String) : String := escapeHtml (normalizeContent s)

/-- The content processing of one feed entry from the converted markdown
onwards (scrape.py 405-480): `markdownify` output is stripped, the
`"No content available"` placeholder replaces an *empty converted* string
(lines 407-410, before any normalization stage), and the result runs
through the stages and the final escaping. -/
def processArticleContent (converted : String) : String :=
  normalizeAndEscape
    (if pyStrip converted = "" then "No content available" else pyStrip converted)

/-! ## Claim C1 -/

/-- C1 counterexample: the normalizer is not idempotent.  The escaping
stage emits character references; when one enters a run as *literal* text
protected by a backslash, stage 8 re-protects it (`\&lt;` stays `\&lt;`)
and the final escaping then converts its ampersand again, growing the text
by one `amp;` per run: input `"\&lt;"` normalizes to `"\&amp;lt;\n"` once
and to `"\&amp;amp;lt;\n"` twice.  (The first run needs only the
backslash-escape rule `\&` → `&` and the renderer's protection of the
literal `&lt;`; the second run repeats the same steps on `&amp;lt;`.) -/
theorem normalizer_reescapes_protected_reference :
    normalizeAndEscape (normalizeAndEscape "\\&lt;") ≠
      normalizeAndEscape "\\&lt;" ∧
    normalizeAndEscape "\\&lt;" = "\\&amp;lt;\n" ∧
    normalizeAndEscape (normalizeAndEscape "\\&lt;") = "\\&amp;amp;lt;\n" :=
  ⟨by decide, by decide, by decide⟩

/-- C1 amended: double application of the normalizer equals single
application on inputs whose escaped output round-trips through stage 8's
character-reference parsing — the spec's fixtures, and plain `&` (whose
`&amp;` is parsed back to `&` by mdformat before being re-escaped to the
same `&amp;`) — but not in general: a backslash-protected reference
pattern in the text breaks the round trip and gains one `amp;` per run. -/
theorem normalizer_idempotent_on_reference_roundtrip_inputs :
    normalizeAndEscape (normalizeAndEscape "✦ Hello ✦") =
      normalizeAndEscape "✦ Hello ✦" ∧
    normalizeAndEscape "✦ Hello ✦" = "# Hello\n" ∧
    normalizeAndEscape (normalizeAndEscape "① First step") =
      normalizeAndEscape "① First step" ∧
    normalizeAndEscape "① First step" = "1. First step\n" ∧
    normalizeAndEscape (normalizeAndEscape "&") = normalizeAndEscape "&" ∧
    normalizeAndEscape "&" = "&amp;\n" :=
  ⟨by decide, by decide, by decide, by decide, by decide, by decide⟩

/-! ## Claim C6 -/

/-- C6: the first substitution of `format_discord_links` is written with
the backreference `\2` (the URL) as the quoted title, not `\1` (the anchor
text), contradicting the function's own docstring and Before/After
comments: the documented input `[Link](https://x.com "Link")` matches
neither pattern (the second cannot cross the space before the title) and
passes through unchanged instead of becoming `[Link](<https://x.com>)`.
Only a link whose *title equals its URL* is rewritten — and then the
replacement callback discards the anchor text, substituting the
scheme-stripped URL. -/
theorem format_discord_links_titled_link_never_matches :
    format_discord_links "[Link](https://x.com \"Link\")" =
      "[Link](https://x.com \"Link\")" ∧
    format_discord_links "[Link](https://x.com \"Link\")" ≠
      "[Link](<https://x.com>)" ∧
    format_discord_links "[anchor](https://x.com \"https://x.com\")" =
      "[x.com](<https://x.com>)" ∧
    format_discord_links "[Link](https://x.com)" = "[Link](<https://x.com>)" :=
  ⟨by decide, by decide, by decide, by decide⟩

/-! ## Claim C9 -/

/-- C9 counterexample: the placeholder check runs on the *converted*
markdown (scrape.py 407-410), before any normalization stage.  A converted
content of `"```\n\n```"` is non-empty there, but stage 1 (empty code
block removal) erases it, every later stage preserves emptiness, and the
feed entry is emitted with empty escaped content — no placeholder. -/
theorem empty_content_guard_counterexample :
    processArticleContent "```\n\n```" = "" ∧
    pyStrip "```\n\n```" ≠ "" :=
  ⟨by decide, by decide⟩

/-- C9 amended: the `"No content available"` placeholder is applied when
the content is empty right after the HTML-to-markdown conversion (before
stage 1), not after stages 1-10: any converted content that strips to the
empty string yields the normalized, escaped placeholder, which is
non-empty. -/
theorem empty_content_guard_amended (s : String) (h : pyStrip s = "") :
    processArticleContent s = "No content available\n" ∧
    processArticleContent s ≠ "" := by
  unfold processArticleContent
  rw [h]
  exact ⟨by decide, by decide⟩

/-- C9 amended witness: the empty converted content. -/
theorem empty_content_guard_amended_witness :
    pyStrip "" = "" ∧ processArticleContent "" = "No content available\n" ∧
      processArticleContent "" ≠ "" :=
  ⟨by decide, (empty_content_guard_amended "" (by decide)).1,
    (empty_content_guard_amended "" (by decide)).2⟩

end WutheringWaves
